import Mathlib

/-!
Shallow embedding of `server/db/repo/need.go` from vitrine-social.

The `NeedRepository` operations (`Get`, `Create`, `Update`, `CreateImage`,
`DeleteImage`, `validate`, `GetOrganizationNeeds`) are embedded as pure
functions over an explicit database state (`DB`: the `needs` and
`needs_images` tables) together with an environment (`Env`) supplying the
two collaborator lookups (`CategoryRepository.Get`,
`OrganizationRepository.GetBaseOrganization`), whose source is outside this
repository slice of this file.  Errors are an explicit inductive type: the
no-rows sentinel of the driver (`sql.ErrNoRows`), other driver errors, and the
domain errors built with `errors.New` / `fmt.Errorf`.
-/

set_option autoImplicit false

namespace VitrineSocial

/-- The error model: `sql.ErrNoRows` is the sentinel the repository compares
against; `driver` stands for any other database/driver error; `domain` is a
human-readable error string built by the repository itself. -/
inductive Err where
  | errNoRows : Err
  | driver : String → Err
  | domain : String → Err
deriving DecidableEq, Repr

/-- `model.Category` summary as embedded in a Need (resolved by the
collaborator category repository). -/
structure Category where
  id : Int
  name : String
deriving DecidableEq, Repr

/-- Base (summary) view of `model.Organization` as embedded in a Need. -/
structure Organization where
  id : Int
  name : String
deriving DecidableEq, Repr

/-- `model.NeedImage`: a row of the `needs_images` table. -/
structure NeedImage where
  id : Int
  needID : Int
  name : String
  url : String
deriving DecidableEq, Repr

/-- In-memory `model.Need` passed to and returned by the repository.
`category` is a pointer in Go (`nil` = `none`); `organization` is a value
(the Go zero value when unset); `dueDate` models the `*time.Time` due date. -/
structure Need where
  id : Int
  categoryID : Int
  organizationID : Int
  title : String
  description : String
  requiredQuantity : Int
  reachedQuantity : Int
  dueDate : Option Int
  status : String
  unit : String
  createdAt : Int
  updatedAt : Int
  images : List NeedImage
  category : Option Category
  organization : Organization
deriving DecidableEq, Repr

/-- A stored row of the `needs` table. -/
structure NeedRow where
  id : Int
  categoryID : Int
  organizationID : Int
  title : String
  description : String
  requiredQtd : Int
  reachedQtd : Int
  dueDate : Option Int
  status : String
  unit : String
  createdAt : Int
  updatedAt : Int
deriving DecidableEq, Repr

/-- The database state visible to the need repository: the two tables it
writes, the sequence generating inserted identifiers, and the clock behind
SQL `now()`. -/
structure DB where
  needs : List NeedRow
  needsImages : List NeedImage
  nextNeedID : Int
  nextImageID : Int
  now : Int
deriving DecidableEq, Repr

/-- Modelled from the spec: the collaborator contract of the category and
organization repositories (their Go source is outside this slice).
`Get(id) -> (summary, error)` returns a possibly-nil pointer and an error
that distinguishes the no-rows sentinel from other failures. -/
structure Env where
  catGet : Int → Option Category × Option Err
  orgGetBase : Int → Option Organization × Option Err

/-- `model.NeedStatusActive`, the status forced on creation. -/
def needStatusActive : String := "ACTIVE"

/-- Go zero value of `model.Organization` (the embedded value before the
organization lookup has run). -/
def emptyOrganization : Organization :=
  { id := 0, name := "" }

/-- `getNeedImages`: `SELECT * FROM needs_images WHERE need_id = $1`. -/
def getNeedImages (db : DB) (needID : Int) : List NeedImage :=
  db.needsImages.filter (fun i => i.needID == needID)

/-- Scanning a `needs` row into a fresh `model.Need` (images, category and
organization not yet populated). -/
def rowToNeed (r : NeedRow) : Need :=
  { id := r.id
    categoryID := r.categoryID
    organizationID := r.organizationID
    title := r.title
    description := r.description
    requiredQuantity := r.requiredQtd
    reachedQuantity := r.reachedQtd
    dueDate := r.dueDate
    status := r.status
    unit := r.unit
    createdAt := r.createdAt
    updatedAt := r.updatedAt
    images := []
    category := none
    organization := emptyOrganization }

/-- Outcome of `NeedRepository.Get`: a populated need, a returned error, or
a runtime panic (nil-pointer dereference). -/
inductive GetResult where
  | ok : Need → GetResult
  | err : Err → GetResult
  | panic : GetResult
deriving DecidableEq, Repr

/-- `NeedRepository.Get`.  Faithful to the source: the error returned by
`getNeedImages` and by `catRepo.Get` is assigned but never checked, and the
pointer returned by `orgRepo.GetBaseOrganization` is dereferenced
(`n.Organization = *o`) without checking the accompanying error, so a nil
pointer there is a panic. -/
def Get (env : Env) (db : DB) (id : Int) : GetResult :=
  match db.needs.find? (fun r => r.id == id) with
  | none => GetResult.err Err.errNoRows
  | some row =>
    let n := rowToNeed row
    let n := { n with images := getNeedImages db n.id }
    let n := { n with category := (env.catGet n.categoryID).1 }
    match (env.orgGetBase n.organizationID).1 with
    | none => GetResult.panic
    | some o => GetResult.ok { n with organization := o }

/-- `strings.TrimSpace`: removes leading and trailing whitespace characters
from a string (modelled on the character list of the string, so that it
evaluates inside the kernel). -/
def trimSpace (s : String) : String :=
  String.mk (((s.data.dropWhile Char.isWhitespace).reverse.dropWhile Char.isWhitespace).reverse)

/-- `errors.New("Deve ser informado um título para a Necessidade")`. -/
def titleRequiredMsg : String :=
  "Deve ser informado um título para a Necessidade"

/-- `fmt.Errorf("Não foi encontrada categoria com ID: %d", n.CategoryID)`. -/
def catNotFoundMsg (id : Int) : String :=
  "Não foi encontrada categoria com ID: " ++ toString id

/-- `fmt.Errorf("Não foi encontrada Organização com ID: %d", n.OrganizationID)`. -/
def orgNotFoundMsg (id : Int) : String :=
  "Não foi encontrada Organização com ID: " ++ toString id

/-- The shared `validate` helper: trims the title and requires it non-empty,
then resolves the category and the organization, mapping the no-rows
sentinel of each lookup to a distinct not-found message and propagating any
other lookup error unchanged.  Returns the (trimmed) need together with the
error, as the Go function does. -/
def validate (env : Env) (n : Need) : Need × Option Err :=
  let n := { n with title := trimSpace n.title }
  if n.title.length = 0 then
    (n, some (Err.domain titleRequiredMsg))
  else
    match (env.catGet n.categoryID).2 with
    | some e =>
      if e = Err.errNoRows then
        (n, some (Err.domain (catNotFoundMsg n.categoryID)))
      else
        (n, some e)
    | none =>
      match (env.orgGetBase n.organizationID).2 with
      | some e =>
        if e = Err.errNoRows then
          (n, some (Err.domain (orgNotFoundMsg n.organizationID)))
        else
          (n, some e)
      | none => (n, none)

/-- `NeedRepository.Create`: validates, forces the status to Active, inserts
a row with the business fields (`RETURNING id` scans the generated
identifier back into the need) and returns the need.  On a validation
error the trimmed need and the error are returned and nothing is written. -/
def Create (env : Env) (db : DB) (n : Need) : (Need × Option Err) × DB :=
  match validate env n with
  | (n, some e) => ((n, some e), db)
  | (n, none) =>
    let n := { n with status := needStatusActive }
    let newID := db.nextNeedID
    let row : NeedRow :=
      { id := newID
        categoryID := n.categoryID
        organizationID := n.organizationID
        title := n.title
        description := n.description
        requiredQtd := n.requiredQuantity
        reachedQtd := n.reachedQuantity
        dueDate := n.dueDate
        status := n.status
        unit := n.unit
        createdAt := db.now
        updatedAt := db.now }
    let db' : DB :=
      { db with
        needs := db.needs ++ [row]
        nextNeedID := db.nextNeedID + 1 }
    (({ n with id := newID }, none), db')

/-- The SET clause of `NeedRepository.Update` applied to a matching row:
category, title, description, quantities, due date, unit, status and the
update timestamp are written; `organization_id` and `created_at` are not
among the assigned columns. -/
def updateRow (n : Need) (now : Int) (r : NeedRow) : NeedRow :=
  if r.id == n.id then
    { r with
      categoryID := n.categoryID
      title := n.title
      description := n.description
      requiredQtd := n.requiredQuantity
      reachedQtd := n.reachedQuantity
      dueDate := n.dueDate
      unit := n.unit
      status := n.status
      updatedAt := now }
  else r

/-- `NeedRepository.Update`: validates, then executes the UPDATE statement;
the number of affected rows is discarded (`_, err = r.db.Exec(...)`), so a
zero-match update succeeds exactly like a one-match update. -/
def Update (env : Env) (db : DB) (n : Need) : (Need × Option Err) × DB :=
  match validate env n with
  | (n, some e) => ((n, some e), db)
  | (n, none) =>
    let db' : DB := { db with needs := db.needs.map (updateRow n db.now) }
    ((n, none), db')

/-- `NeedRepository.CreateImage`: inserts a `needs_images` row and scans the
generated identifier back. -/
def CreateImage (db : DB) (i : NeedImage) : (NeedImage × Option Err) × DB :=
  let newID := db.nextImageID
  let row : NeedImage := { i with id := newID }
  let db' : DB :=
    { db with
      needsImages := db.needsImages ++ [row]
      nextImageID := db.nextImageID + 1 }
  ((row, none), db')

/-- `NeedRepository.DeleteImage`:
`DELETE FROM needs_images WHERE id = $1 AND need_id = $2`; the affected-row
count is discarded, so the operation succeeds whether or not a row matched. -/
def DeleteImage (db : DB) (imageID needID : Int) : Option Err × DB :=
  (none,
    { db with
      needsImages :=
        db.needsImages.filter (fun i => !(i.id == imageID && i.needID == needID)) })

/-- `fmt.Errorf("Método de ordenação não reconhecido")`. -/
def badOrderMsg : String := "Método de ordenação não reconhecido"

/-- The ORDER BY filter construction of `GetOrganizationNeeds`: when a sort
column is requested, columns outside the allowlist fall back to
`created_at`; a non-empty direction other than asc/desc is an error; an
empty direction defaults to asc.  When no column is requested the filter is
empty. -/
def buildFilter (orderBy order : String) : Except Err String :=
  if orderBy.length > 0 then
    let orderBy :=
      if orderBy = "id" ∨ orderBy = "updated_at" then orderBy else "created_at"
    if order.length > 0 then
      if order ≠ "asc" ∧ order ≠ "desc" then
        Except.error (Err.domain badOrderMsg)
      else
        Except.ok ("ORDER BY " ++ orderBy ++ " " ++ order ++ " ")
    else
      Except.ok ("ORDER BY " ++ orderBy ++ " " ++ "asc" ++ " ")
  else
    Except.ok ""

/-- The per-row enrichment loop of `GetOrganizationNeeds`: each need gets
its resolved category and its image list; unlike `Get`, the category-lookup
error is checked and returned. -/
def enrichNeeds (env : Env) (db : DB) : List NeedRow → Except Err (List Need)
  | [] => Except.ok []
  | r :: rs =>
    let n := rowToNeed r
    match env.catGet n.categoryID with
    | (_, some e) => Except.error e
    | (cat, none) =>
      let n := { n with category := cat, images := getNeedImages db n.id }
      match enrichNeeds env db rs with
      | Except.error e => Except.error e
      | Except.ok ns => Except.ok (n :: ns)

/-- `NeedRepository.GetOrganizationNeeds`: builds the ORDER BY filter (an
unrecognized direction aborts before any query), issues
`SELECT * FROM needs WHERE organization_id = $1 %s` and enriches each row.
The result carries the SQL text actually sent alongside the needs, making
the chosen ordering clause observable. -/
def GetOrganizationNeeds (env : Env) (db : DB) (oID : Int)
    (orderBy order : String) : Except Err (String × List Need) :=
  match buildFilter orderBy order with
  | Except.error e => Except.error e
  | Except.ok filter =>
    let sqlNeeds := "SELECT * FROM needs WHERE organization_id = $1 " ++ filter
    let rows := db.needs.filter (fun r => r.organizationID == oID)
    match enrichNeeds env db rows with
    | Except.error e => Except.error e
    | Except.ok ns => Except.ok (sqlNeeds, ns)

/-! ### Helper lemmas -/

/-- `validate` always returns the input need with a trimmed title, in every
branch. -/
theorem validate_fst (env : Env) (n : Need) :
    (validate env n).1 = { n with title := trimSpace n.title } := by
  unfold validate
  dsimp only
  split
  · rfl
  · split
    · split <;> rfl
    · split
      · split <;> rfl
      · rfl

/-- When the title trims non-empty and both collaborator lookups report no
error, `validate` succeeds. -/
theorem validate_ok (env : Env) (n : Need)
    (ht : (trimSpace n.title).length ≠ 0)
    (hc : (env.catGet n.categoryID).2 = none)
    (ho : (env.orgGetBase n.organizationID).2 = none) :
    validate env n = ({ n with title := trimSpace n.title }, none) := by
  unfold validate
  dsimp only
  rw [if_neg ht]
  rw [hc, ho]

/-! ### Concrete fixtures used by witnesses and counterexamples -/

/-- An environment in which every category and organization lookup
succeeds. -/
def envAllOk : Env :=
  { catGet := fun i => (some { id := i, name := "Categoria" }, none)
    orgGetBase := fun i => (some { id := i, name := "Organizacao" }, none) }

/-- An empty database. -/
def dbEmpty : DB :=
  { needs := [], needsImages := [], nextNeedID := 1, nextImageID := 1, now := 100 }

/-- A sample need as a caller would pass it to `Create`, with a
caller-supplied status that is not Active. -/
def sampleNeed : Need :=
  { id := 0
    categoryID := 3
    organizationID := 7
    title := "  Cobertores  "
    description := "Cobertores para o inverno"
    requiredQuantity := 10
    reachedQuantity := 2
    dueDate := some 500
    status := "INACTIVE"
    unit := "un"
    createdAt := 0
    updatedAt := 0
    images := []
    category := none
    organization := emptyOrganization }

/-! ### C1 -/

/-- C1: for every Need passed to `Create` whose title is non-empty after
trimming and whose category and organization lookups succeed, `Create`
succeeds, the returned Need has status Active regardless of the supplied
status, and it carries the identifier generated by the insert (the row
appended to the `needs` table bears that same identifier). -/
theorem Create_forces_active_and_returns_generated_id
    (env : Env) (db : DB) (n : Need)
    (ht : (trimSpace n.title).length ≠ 0)
    (hc : (env.catGet n.categoryID).2 = none)
    (ho : (env.orgGetBase n.organizationID).2 = none) :
    (Create env db n).1.2 = none ∧
    (Create env db n).1.1.status = needStatusActive ∧
    (Create env db n).1.1.id = db.nextNeedID ∧
    ∃ row, (Create env db n).2.needs = db.needs ++ [row] ∧
      row.id = (Create env db n).1.1.id ∧
      row.status = needStatusActive := by
  unfold Create
  rw [validate_ok env n ht hc ho]
  refine ⟨rfl, rfl, rfl, ?_⟩
  exact ⟨_, rfl, rfl, rfl⟩

/-- Witness for C1 at a concrete environment, database and need whose
supplied status is not Active. -/
theorem Create_forces_active_and_returns_generated_id_witness :
    ((trimSpace sampleNeed.title).length ≠ 0 ∧
      (envAllOk.catGet sampleNeed.categoryID).2 = none ∧
      (envAllOk.orgGetBase sampleNeed.organizationID).2 = none) ∧
    ((Create envAllOk dbEmpty sampleNeed).1.2 = none ∧
      (Create envAllOk dbEmpty sampleNeed).1.1.status = needStatusActive ∧
      (Create envAllOk dbEmpty sampleNeed).1.1.id = dbEmpty.nextNeedID ∧
      ∃ row, (Create envAllOk dbEmpty sampleNeed).2.needs = dbEmpty.needs ++ [row] ∧
        row.id = (Create envAllOk dbEmpty sampleNeed).1.1.id ∧
        row.status = needStatusActive) :=
  ⟨⟨by decide, by rfl, by rfl⟩,
    Create_forces_active_and_returns_generated_id envAllOk dbEmpty sampleNeed
      (by decide) (by rfl) (by rfl)⟩

/-! ### C2 -/

/-- A need whose title is whitespace only. -/
def blankTitleNeed : Need :=
  { sampleNeed with title := "   " }

/-- C2: the shared validation helper checks, in order: (a) empty-after-trim
title yields the title-required error; (b) a no-rows category lookup yields
the category-not-found error, (c) any other category-lookup error is
propagated unchanged; (d)/(e) the same distinction for the organization
lookup, reached only after the category lookup succeeded; and (f) whenever
validation fails, both `Create` and `Update` return that error and leave the
database unchanged. -/
theorem validate_order_and_no_write_on_error
    (env : Env) (db : DB) (n : Need) :
    ((trimSpace n.title).length = 0 →
      (validate env n).2 = some (Err.domain titleRequiredMsg)) ∧
    ((trimSpace n.title).length ≠ 0 →
      (env.catGet n.categoryID).2 = some Err.errNoRows →
      (validate env n).2 = some (Err.domain (catNotFoundMsg n.categoryID))) ∧
    (∀ e, (trimSpace n.title).length ≠ 0 →
      (env.catGet n.categoryID).2 = some e → e ≠ Err.errNoRows →
      (validate env n).2 = some e) ∧
    ((trimSpace n.title).length ≠ 0 →
      (env.catGet n.categoryID).2 = none →
      (env.orgGetBase n.organizationID).2 = some Err.errNoRows →
      (validate env n).2 = some (Err.domain (orgNotFoundMsg n.organizationID))) ∧
    (∀ e, (trimSpace n.title).length ≠ 0 →
      (env.catGet n.categoryID).2 = none →
      (env.orgGetBase n.organizationID).2 = some e → e ≠ Err.errNoRows →
      (validate env n).2 = some e) ∧
    (∀ e, (validate env n).2 = some e →
      (Create env db n).1.2 = some e ∧ (Create env db n).2 = db ∧
      (Update env db n).1.2 = some e ∧ (Update env db n).2 = db) := by
  refine ⟨?_, ?_, ?_, ?_, ?_, ?_⟩
  · intro h
    unfold validate
    dsimp only
    rw [if_pos h]
  · intro ht hc
    unfold validate
    dsimp only
    rw [if_neg ht, hc]
    simp
  · intro e ht hc he
    unfold validate
    dsimp only
    rw [if_neg ht, hc]
    simp [he]
  · intro ht hc ho
    unfold validate
    dsimp only
    rw [if_neg ht, hc, ho]
    simp
  · intro e ht hc ho he
    unfold validate
    dsimp only
    rw [if_neg ht, hc, ho]
    simp [he]
  · intro e hv
    rcases hve : validate env n with ⟨n', err⟩
    rw [hve] at hv
    dsimp at hv
    subst hv
    refine ⟨?_, ?_, ?_, ?_⟩
    · simp [Create, hve]
    · simp [Create, hve]
    · simp [Update, hve]
    · simp [Update, hve]

/-- Witness for C2: a whitespace-only title fails with the title-required
error and neither `Create` nor `Update` writes anything. -/
theorem validate_order_and_no_write_on_error_witness :
    (trimSpace blankTitleNeed.title).length = 0 ∧
    (validate envAllOk blankTitleNeed).2 = some (Err.domain titleRequiredMsg) ∧
    (Create envAllOk dbEmpty blankTitleNeed).2 = dbEmpty ∧
    (Update envAllOk dbEmpty blankTitleNeed).2 = dbEmpty :=
  ⟨by decide,
    (validate_order_and_no_write_on_error envAllOk dbEmpty blankTitleNeed).1 (by decide),
    ((validate_order_and_no_write_on_error envAllOk dbEmpty blankTitleNeed).2.2.2.2.2
      (Err.domain titleRequiredMsg) (by decide)).2.1,
    ((validate_order_and_no_write_on_error envAllOk dbEmpty blankTitleNeed).2.2.2.2.2
      (Err.domain titleRequiredMsg) (by decide)).2.2.2⟩

/-! ### C3 -/

/-- A stored need row used to exercise the enrichment steps of `Get`. -/
def row3 : NeedRow :=
  { id := 1
    categoryID := 10
    organizationID := 20
    title := "Comida"
    description := "Cesta basica"
    requiredQtd := 5
    reachedQtd := 0
    dueDate := none
    status := "ACTIVE"
    unit := "kg"
    createdAt := 0
    updatedAt := 0 }

/-- A database holding exactly `row3`. -/
def db3 : DB :=
  { needs := [row3], needsImages := [], nextNeedID := 2, nextImageID := 1, now := 0 }

/-- An environment whose category lookup fails with a driver error while the
organization lookup succeeds. -/
def env3 : Env :=
  { catGet := fun _ => (none, some (Err.driver "connection reset"))
    orgGetBase := fun i => (some { id := i, name := "Organizacao" }, none) }

/-- C3 evaluated at the failing input: the need-row fetch succeeds, the
category lookup fails with a driver error, yet `Get` returns the need
(with a nil category) and no error at all — the category-lookup error is
assigned to `err` and never checked, contradicting the claim that any
mid-sequence error is returned immediately. -/
theorem Get_swallows_category_lookup_error :
    (env3.catGet row3.categoryID).2 = some (Err.driver "connection reset") ∧
    Get env3 db3 1 =
      GetResult.ok
        { rowToNeed row3 with
          category := none
          organization := { id := 20, name := "Organizacao" } } :=
  ⟨rfl, rfl⟩

/-! ### C9 -/

/-- A stored need row whose organization lookup will fail. -/
def row9 : NeedRow :=
  { id := 4
    categoryID := 11
    organizationID := 21
    title := "Agasalho"
    description := "Campanha do agasalho"
    requiredQtd := 30
    reachedQtd := 1
    dueDate := some 900
    status := "ACTIVE"
    unit := "un"
    createdAt := 0
    updatedAt := 0 }

/-- A database holding exactly `row9`. -/
def db9 : DB :=
  { needs := [row9], needsImages := [], nextNeedID := 5, nextImageID := 1, now := 0 }

/-- An environment whose category lookup succeeds but whose base-organization
lookup fails, returning a nil pointer alongside the error — the usual Go
`(nil, err)` shape. -/
def env9 : Env :=
  { catGet := fun i => (some { id := i, name := "Categoria" }, none)
    orgGetBase := fun _ => (none, some (Err.driver "connection lost")) }

/-- C9: there is an execution of `Get` in which the need-row fetch succeeds
but the base-organization lookup fails with a nil organization pointer, and
`Get` hits the unchecked dereference `n.Organization = *o` — a runtime
panic — instead of returning the lookup error. -/
theorem Get_panics_when_org_lookup_fails :
    (db9.needs.find? (fun r => r.id == (4 : Int))).isSome = true ∧
    env9.orgGetBase row9.organizationID = (none, some (Err.driver "connection lost")) ∧
    Get env9 db9 4 = GetResult.panic :=
  ⟨rfl, rfl, rfl⟩

/-! ### C4 -/

/-- `updateRow` never touches the identifier, organization reference or
creation timestamp of a row, matched or not. -/
theorem updateRow_frame (m : Need) (now : Int) (r : NeedRow) :
    (updateRow m now r).organizationID = r.organizationID ∧
    (updateRow m now r).id = r.id ∧
    (updateRow m now r).createdAt = r.createdAt := by
  unfold updateRow
  split <;> exact ⟨rfl, rfl, rfl⟩

/-- Mapping a function that fixes every element of a list is the identity. -/
theorem map_id_of_forall_eq {α : Type} (f : α → α) (l : List α)
    (h : ∀ r ∈ l, f r = r) : l.map f = l := by
  induction l with
  | nil => rfl
  | cons a as ih =>
    simp only [List.map_cons]
    rw [h a (List.mem_cons_self a as),
      ih (fun r hr => h r (List.mem_cons_of_mem a hr))]

/-- `updateRow` is the identity on rows whose identifier differs from the
one being updated. -/
theorem updateRow_no_match (m : Need) (now : Int) (r : NeedRow)
    (h : r.id ≠ m.id) : updateRow m now r = r := by
  unfold updateRow
  rw [if_neg]
  simp only [beq_iff_eq]
  exact h

/-- C4: whenever validation passes, `Update` reports success whether or not
any stored row matches the supplied identifier; in particular, when no row
matches, the needs table is completely unchanged and still no error is
raised. -/
theorem Update_succeeds_even_when_no_row_matches
    (env : Env) (db : DB) (n : Need)
    (hv : (validate env n).2 = none) :
    (Update env db n).1.2 = none ∧
    ((∀ r ∈ db.needs, r.id ≠ n.id) → (Update env db n).2.needs = db.needs) := by
  rcases hve : validate env n with ⟨n', err⟩
  rw [hve] at hv
  dsimp at hv
  subst hv
  have hn' : n' = { n with title := trimSpace n.title } := by
    have h := validate_fst env n
    rw [hve] at h
    exact h
  constructor
  · simp [Update, hve]
  · intro hno
    simp only [Update, hve]
    show db.needs.map (updateRow n' db.now) = db.needs
    apply map_id_of_forall_eq
    intro r hr
    apply updateRow_no_match
    rw [hn']
    exact hno r hr

/-- Witness for C4: a valid need whose identifier matches nothing in an
empty database is still updated without error. -/
theorem Update_succeeds_even_when_no_row_matches_witness :
    ((validate envAllOk sampleNeed).2 = none ∧
      (∀ r ∈ dbEmpty.needs, r.id ≠ sampleNeed.id)) ∧
    ((Update envAllOk dbEmpty sampleNeed).1.2 = none ∧
      ((∀ r ∈ dbEmpty.needs, r.id ≠ sampleNeed.id) →
        (Update envAllOk dbEmpty sampleNeed).2.needs = dbEmpty.needs)) :=
  ⟨⟨by decide, by decide⟩,
    Update_succeeds_even_when_no_row_matches envAllOk dbEmpty sampleNeed (by decide)⟩

/-! ### C10 -/

/-- The stored row `Update` is pointed at in the C10 witness. -/
def rowC10 : NeedRow :=
  { id := 42
    categoryID := 1
    organizationID := 77
    title := "Livros"
    description := "Livros didaticos"
    requiredQtd := 3
    reachedQtd := 0
    dueDate := none
    status := "ACTIVE"
    unit := "un"
    createdAt := 55
    updatedAt := 55 }

/-- A database holding exactly `rowC10`. -/
def dbC10 : DB :=
  { needs := [rowC10], needsImages := [], nextNeedID := 43, nextImageID := 1, now := 200 }

/-- The need passed to `Update` in the C10 witness; its organization
reference differs from the one stored in `rowC10`. -/
def needC10 : Need :=
  { sampleNeed with id := 42, organizationID := 8 }

/-- C10: `Update` never writes the `organization_id` column (nor `id` or
`created_at`): those columns are identical, row by row, before and after any
`Update`; and when validation passes and a row matches the identifier, the
updated table contains that row with category, title, description,
quantities, due date, unit, status and update timestamp set from the
supplied need while its organization reference is the stored one, untouched. -/
theorem Update_never_writes_organization_column
    (env : Env) (db : DB) (n : Need) :
    (Update env db n).2.needs.map (fun r => r.organizationID) =
      db.needs.map (fun r => r.organizationID) ∧
    (Update env db n).2.needs.map (fun r => r.id) =
      db.needs.map (fun r => r.id) ∧
    (Update env db n).2.needs.map (fun r => r.createdAt) =
      db.needs.map (fun r => r.createdAt) ∧
    ((validate env n).2 = none →
      ∀ r ∈ db.needs, r.id = n.id →
        ∃ r', r' ∈ (Update env db n).2.needs ∧
          r'.organizationID = r.organizationID ∧
          r'.createdAt = r.createdAt ∧
          r'.categoryID = n.categoryID ∧
          r'.title = trimSpace n.title ∧
          r'.description = n.description ∧
          r'.requiredQtd = n.requiredQuantity ∧
          r'.reachedQtd = n.reachedQuantity ∧
          r'.dueDate = n.dueDate ∧
          r'.unit = n.unit ∧
          r'.status = n.status ∧
          r'.updatedAt = db.now) := by
  rcases hve : validate env n with ⟨n', err⟩
  have hn' : n' = { n with title := trimSpace n.title } := by
    have h := validate_fst env n
    rw [hve] at h
    exact h
  cases err with
  | some e =>
    refine ⟨by simp [Update, hve], by simp [Update, hve], by simp [Update, hve], ?_⟩
    intro hv
    simp [hve] at hv
  | none =>
    have hmap : ∀ (f : NeedRow → Int)
        (hf : ∀ r, f (updateRow n' db.now r) = f r) (l : List NeedRow),
        (l.map (updateRow n' db.now)).map f = l.map f := by
      intro f hf l
      induction l with
      | nil => rfl
      | cons a as ih => simp only [List.map_cons, hf a, ih]
    have horg : ∀ r, (updateRow n' db.now r).organizationID = r.organizationID :=
      fun r => (updateRow_frame n' db.now r).1
    have hid : ∀ r, (updateRow n' db.now r).id = r.id :=
      fun r => (updateRow_frame n' db.now r).2.1
    have hcre : ∀ r, (updateRow n' db.now r).createdAt = r.createdAt :=
      fun r => (updateRow_frame n' db.now r).2.2
    refine ⟨?_, ?_, ?_, ?_⟩
    · simp only [Update, hve]
      exact hmap _ horg db.needs
    · simp only [Update, hve]
      exact hmap _ hid db.needs
    · simp only [Update, hve]
      exact hmap _ hcre db.needs
    · intro _ r hr hrid
      refine ⟨updateRow n' db.now r, ?_, ?_⟩
      · simp only [Update, hve]
        exact List.mem_map_of_mem (updateRow n' db.now) hr
      · have hmatch : (r.id == n'.id) = true := by
          rw [hn']
          simp only [beq_iff_eq]
          exact hrid
        unfold updateRow
        rw [if_pos hmatch, hn']
        exact ⟨rfl, rfl, rfl, rfl, rfl, rfl, rfl, rfl, rfl, rfl, rfl⟩

/-- Witness for C10: updating a need whose supplied organization reference
(8) differs from the stored one (77) leaves the stored `organization_id`
at 77 while the business columns change. -/
theorem Update_never_writes_organization_column_witness :
    ((validate envAllOk needC10).2 = none ∧ rowC10 ∈ dbC10.needs ∧
      rowC10.id = needC10.id) ∧
    (∃ r', r' ∈ (Update envAllOk dbC10 needC10).2.needs ∧
      r'.organizationID = rowC10.organizationID ∧
      r'.createdAt = rowC10.createdAt ∧
      r'.categoryID = needC10.categoryID ∧
      r'.title = trimSpace needC10.title ∧
      r'.description = needC10.description ∧
      r'.requiredQtd = needC10.requiredQuantity ∧
      r'.reachedQtd = needC10.reachedQuantity ∧
      r'.dueDate = needC10.dueDate ∧
      r'.unit = needC10.unit ∧
      r'.status = needC10.status ∧
      r'.updatedAt = dbC10.now) :=
  ⟨⟨by decide, by decide, by decide⟩,
    (Update_never_writes_organization_column envAllOk dbC10 needC10).2.2.2
      (by decide) rowC10 (by decide) (by decide)⟩

/-! ### C7 -/

/-- Filtering with a predicate that holds on every element is the identity. -/
theorem filter_eq_self_of_forall {α : Type} (p : α → Bool) (l : List α)
    (h : ∀ a ∈ l, p a = true) : l.filter p = l := by
  induction l with
  | nil => rfl
  | cons a as ih =>
    rw [List.filter_cons_of_pos (h a (List.mem_cons_self a as)),
      ih (fun x hx => h x (List.mem_cons_of_mem a hx))]

/-- C7: `DeleteImage` succeeds unconditionally, touches only the
`needs_images` table, removes exactly the rows matching both the image and
the need identifier (a row with the same image identifier but another owning
need stays, and vice versa), is a no-op when no row matches, and is
idempotent. -/
theorem DeleteImage_scoped_and_idempotent (db : DB) (imageID needID : Int) :
    (DeleteImage db imageID needID).1 = none ∧
    (DeleteImage db imageID needID).2.needs = db.needs ∧
    (∀ i ∈ (DeleteImage db imageID needID).2.needsImages, i ∈ db.needsImages) ∧
    (∀ i ∈ db.needsImages, i.needID ≠ needID →
      i ∈ (DeleteImage db imageID needID).2.needsImages) ∧
    (∀ i ∈ db.needsImages, i.id ≠ imageID →
      i ∈ (DeleteImage db imageID needID).2.needsImages) ∧
    (∀ i ∈ db.needsImages, i.id = imageID → i.needID = needID →
      i ∉ (DeleteImage db imageID needID).2.needsImages) ∧
    ((∀ i ∈ db.needsImages, ¬(i.id = imageID ∧ i.needID = needID)) →
      (DeleteImage db imageID needID).2.needsImages = db.needsImages) ∧
    (DeleteImage (DeleteImage db imageID needID).2 imageID needID).2.needsImages =
      (DeleteImage db imageID needID).2.needsImages := by
  refine ⟨rfl, rfl, ?_, ?_, ?_, ?_, ?_, ?_⟩
  · intro i hi
    exact (List.mem_filter.mp hi).1
  · intro i hi h
    refine List.mem_filter.mpr ⟨hi, ?_⟩
    simp [h]
  · intro i hi h
    refine List.mem_filter.mpr ⟨hi, ?_⟩
    simp [h]
  · intro i hi h1 h2 hmem
    have hp := (List.mem_filter.mp hmem).2
    simp [h1, h2] at hp
  · intro h
    apply filter_eq_self_of_forall
    intro i hi
    have := h i hi
    simp only [Bool.not_eq_true', Bool.and_eq_false_iff, beq_eq_false_iff_ne]
    by_cases h1 : i.id = imageID
    · right
      intro h2
      exact this ⟨h1, h2⟩
    · left
      exact h1
  · apply filter_eq_self_of_forall
    intro i hi
    exact (List.mem_filter.mp hi).2

/-- An image owned by need 2 but sharing image identifier 1 with the row
being deleted. -/
def imgOther : NeedImage :=
  { id := 1, needID := 2, name := "foto", url := "http://example.org/foto.png" }

/-- An image owned by need 1 with image identifier 1. -/
def imgTarget : NeedImage :=
  { id := 1, needID := 1, name := "foto", url := "http://example.org/foto2.png" }

/-- A database holding both images. -/
def dbImages : DB :=
  { needs := [], needsImages := [imgTarget, imgOther], nextNeedID := 1,
    nextImageID := 2, now := 0 }

/-- Witness for C7: deleting image 1 of need 1 leaves the image with the
same identifier that belongs to need 2 untouched. -/
theorem DeleteImage_scoped_and_idempotent_witness :
    (imgOther ∈ dbImages.needsImages ∧ imgOther.needID ≠ (1 : Int)) ∧
    imgOther ∈ (DeleteImage dbImages 1 1).2.needsImages :=
  ⟨⟨by decide, by decide⟩,
    (DeleteImage_scoped_and_idempotent dbImages 1 1).2.2.2.1 imgOther
      (by decide) (by decide)⟩

/-! ### C5 -/

/-- Counterexample to C5 as stated: with an empty requested sort column the
query carries no ORDER BY clause at all — it does not fall back to ordering
by `created_at`. -/
theorem empty_sort_column_gives_no_order_by :
    GetOrganizationNeeds envAllOk dbEmpty 7 "" "asc" =
      Except.ok ("SELECT * FROM needs WHERE organization_id = $1 ", []) ∧
    ("SELECT * FROM needs WHERE organization_id = $1 " : String) ≠
      "SELECT * FROM needs WHERE organization_id = $1 ORDER BY created_at asc " ∧
    buildFilter "" "asc" ≠ Except.ok "ORDER BY created_at asc " := by
  refine ⟨rfl, by decide, ?_⟩
  intro h
  have h' : ("" : String) = "ORDER BY created_at asc " := by
    injection h
  exact absurd h' (by decide)

/-- C5 (amended): a non-empty requested sort column outside the allowlist
{id, updated_at} silently falls back to `created_at` — the call behaves
exactly as if `created_at` had been requested, and with a legal direction
the ORDER BY clause names `created_at`; an empty requested sort column
instead produces an empty filter (no ORDER BY clause), whatever the
direction argument. -/
theorem unrecognized_sort_column_falls_back
    (env : Env) (db : DB) (oID : Int) (orderBy order : String) :
    (orderBy.length ≠ 0 → orderBy ≠ "id" → orderBy ≠ "updated_at" →
      GetOrganizationNeeds env db oID orderBy order =
        GetOrganizationNeeds env db oID "created_at" order ∧
      ((order = "" ∨ order = "asc" ∨ order = "desc") →
        buildFilter orderBy order =
          Except.ok ("ORDER BY created_at " ++
            (if order = "" then "asc" else order) ++ " "))) ∧
    (orderBy = "" → buildFilter orderBy order = Except.ok "") := by
  constructor
  · intro h0 h1 h2
    have hpos : 0 < orderBy.length := Nat.pos_of_ne_zero h0
    have hbf : buildFilter orderBy order = buildFilter "created_at" order := by
      have e1 : (if orderBy = "id" ∨ orderBy = "updated_at" then orderBy
          else "created_at") = "created_at" :=
        if_neg (fun h => h.elim h1 h2)
      have e2 : (if ("created_at" : String) = "id" ∨
          ("created_at" : String) = "updated_at" then ("created_at" : String)
          else "created_at") = "created_at" := by
        rw [if_neg]
        decide
      unfold buildFilter
      rw [if_pos hpos, if_pos (by decide : 0 < ("created_at" : String).length)]
      dsimp only
      simp only [e1, e2]
    constructor
    · unfold GetOrganizationNeeds
      rw [hbf]
    · intro horder
      rw [hbf]
      rcases horder with h | h | h <;> subst h <;> rfl
  · intro h
    subst h
    rfl

/-- Witness for C5 (amended): requesting the column `bogus` with direction
`asc` behaves as requesting `created_at`, and the clause built is
`ORDER BY created_at asc`. -/
theorem unrecognized_sort_column_falls_back_witness :
    (("bogus" : String).length ≠ 0 ∧ ("bogus" : String) ≠ "id" ∧
      ("bogus" : String) ≠ "updated_at") ∧
    GetOrganizationNeeds envAllOk dbEmpty 7 "bogus" "asc" =
      GetOrganizationNeeds envAllOk dbEmpty 7 "created_at" "asc" ∧
    buildFilter "bogus" "asc" = Except.ok "ORDER BY created_at asc " :=
  ⟨⟨by decide, by decide, by decide⟩,
    ((unrecognized_sort_column_falls_back envAllOk dbEmpty 7 "bogus" "asc").1
      (by decide) (by decide) (by decide)).1,
    ((unrecognized_sort_column_falls_back envAllOk dbEmpty 7 "bogus" "asc").1
      (by decide) (by decide) (by decide)).2 (Or.inr (Or.inl rfl))⟩

/-! ### C6 -/

/-- C6: when a sort column is requested, a non-empty direction other than
exactly `asc` or `desc` makes the call fail with the direction error before
any query is issued (for every database state, the same error is returned
and nothing is read); an empty direction behaves exactly as `asc`. -/
theorem invalid_direction_rejected_and_empty_defaults_to_asc
    (env : Env) (db : DB) (oID : Int) (orderBy order : String)
    (h0 : orderBy.length ≠ 0) :
    (order.length ≠ 0 → order ≠ "asc" → order ≠ "desc" →
      GetOrganizationNeeds env db oID orderBy order =
        Except.error (Err.domain badOrderMsg)) ∧
    (order = "" →
      GetOrganizationNeeds env db oID orderBy order =
        GetOrganizationNeeds env db oID orderBy "asc") := by
  have hpos : 0 < orderBy.length := Nat.pos_of_ne_zero h0
  constructor
  · intro hl ha hd
    unfold GetOrganizationNeeds buildFilter
    rw [if_pos hpos]
    dsimp only
    rw [if_pos (Nat.pos_of_ne_zero hl), if_pos ⟨ha, hd⟩]
  · intro h
    subst h
    have hbf : buildFilter orderBy "" = buildFilter orderBy "asc" := by
      unfold buildFilter
      rw [if_pos hpos, if_pos hpos]
      dsimp only
      rw [if_neg (by decide : ¬(0 < ("" : String).length)),
        if_pos (by decide : 0 < ("asc" : String).length),
        if_neg (by decide : ¬(("asc" : String) ≠ "asc" ∧ ("asc" : String) ≠ "desc"))]
    unfold GetOrganizationNeeds
    rw [hbf]

/-- Witness for C6: requesting column `id` with direction `sideways` fails
with the direction error; requesting it with an empty direction behaves as
`asc`. -/
theorem invalid_direction_rejected_and_empty_defaults_to_asc_witness :
    (("id" : String).length ≠ 0 ∧ ("sideways" : String).length ≠ 0 ∧
      ("sideways" : String) ≠ "asc" ∧ ("sideways" : String) ≠ "desc") ∧
    GetOrganizationNeeds envAllOk dbEmpty 7 "id" "sideways" =
      Except.error (Err.domain badOrderMsg) ∧
    GetOrganizationNeeds envAllOk dbEmpty 7 "id" "" =
      GetOrganizationNeeds envAllOk dbEmpty 7 "id" "asc" :=
  ⟨⟨by decide, by decide, by decide, by decide⟩,
    (invalid_direction_rejected_and_empty_defaults_to_asc envAllOk dbEmpty 7
      "id" "sideways" (by decide)).1 (by decide) (by decide) (by decide),
    (invalid_direction_rejected_and_empty_defaults_to_asc envAllOk dbEmpty 7
      "id" "" (by decide)).2 rfl⟩

/-! ### C8 -/

/-- `find?` over a list extended with one element returns that element when
nothing before it satisfies the predicate and it does. -/
theorem find?_append_last {α : Type} (p : α → Bool) (l : List α) (x : α)
    (h : ∀ y ∈ l, p y = false) (hx : p x = true) :
    (l ++ [x]).find? p = some x := by
  induction l with
  | nil =>
    rw [List.nil_append]
    exact List.find?_cons_of_pos _ hx
  | cons a as ih =>
    rw [List.cons_append, List.find?_cons_of_neg]
    · exact ih (fun y hy => h y (List.mem_cons_of_mem a hy))
    · simp [h a (List.mem_cons_self a as)]

/-- C8: a need successfully created by `Create` and then fetched by `Get`
under the returned identifier comes back with exactly the business fields of
the need `Create` returned — title, description, required and reached
quantities, due date and unit (identifier, status and timestamps are server
assigned and outside the comparison).  The freshness hypothesis says the
generated identifier is not already present in the table; the organization
hypothesis says the base-organization lookup yields a non-nil pointer. -/
theorem Create_then_Get_round_trips
    (env : Env) (db : DB) (n : Need)
    (hfresh : ∀ r ∈ db.needs, r.id ≠ db.nextNeedID)
    (hok : (Create env db n).1.2 = none)
    (horg : (env.orgGetBase n.organizationID).1.isSome = true) :
    ∃ m, Get env (Create env db n).2 (Create env db n).1.1.id = GetResult.ok m ∧
      m.title = (Create env db n).1.1.title ∧
      m.description = (Create env db n).1.1.description ∧
      m.requiredQuantity = (Create env db n).1.1.requiredQuantity ∧
      m.reachedQuantity = (Create env db n).1.1.reachedQuantity ∧
      m.dueDate = (Create env db n).1.1.dueDate ∧
      m.unit = (Create env db n).1.1.unit := by
  rcases hve : validate env n with ⟨n', err⟩
  have hn' := validate_fst env n
  rw [hve] at hn'
  dsimp at hn'
  cases err with
  | some e =>
    rw [show (Create env db n).1.2 = some e from by simp [Create, hve]] at hok
    exact absurd hok (by simp)
  | none =>
    subst hn'
    have hCreate : Create env db n =
        (({ n with
            title := trimSpace n.title
            status := needStatusActive
            id := db.nextNeedID }, none),
          { db with
            needs := db.needs ++
              [{ id := db.nextNeedID
                 categoryID := n.categoryID
                 organizationID := n.organizationID
                 title := trimSpace n.title
                 description := n.description
                 requiredQtd := n.requiredQuantity
                 reachedQtd := n.reachedQuantity
                 dueDate := n.dueDate
                 status := needStatusActive
                 unit := n.unit
                 createdAt := db.now
                 updatedAt := db.now }]
            nextNeedID := db.nextNeedID + 1 }) := by
      unfold Create
      rw [hve]
    rw [hCreate]
    dsimp only
    obtain ⟨o, ho⟩ := Option.isSome_iff_exists.mp horg
    unfold Get
    rw [find?_append_last _ _ _
      (fun y hy => by simp only [beq_eq_false_iff_ne]; exact hfresh y hy)
      (by simp)]
    dsimp only [rowToNeed]
    rw [ho]
    exact ⟨_, rfl, rfl, rfl, rfl, rfl, rfl, rfl⟩

/-- Witness for C8 at a concrete environment, database and need. -/
theorem Create_then_Get_round_trips_witness :
    ((∀ r ∈ dbEmpty.needs, r.id ≠ dbEmpty.nextNeedID) ∧
      (Create envAllOk dbEmpty sampleNeed).1.2 = none ∧
      (envAllOk.orgGetBase sampleNeed.organizationID).1.isSome = true) ∧
    (∃ m, Get envAllOk (Create envAllOk dbEmpty sampleNeed).2
        (Create envAllOk dbEmpty sampleNeed).1.1.id = GetResult.ok m ∧
      m.title = (Create envAllOk dbEmpty sampleNeed).1.1.title ∧
      m.description = (Create envAllOk dbEmpty sampleNeed).1.1.description ∧
      m.requiredQuantity = (Create envAllOk dbEmpty sampleNeed).1.1.requiredQuantity ∧
      m.reachedQuantity = (Create envAllOk dbEmpty sampleNeed).1.1.reachedQuantity ∧
      m.dueDate = (Create envAllOk dbEmpty sampleNeed).1.1.dueDate ∧
      m.unit = (Create envAllOk dbEmpty sampleNeed).1.1.unit) :=
  ⟨⟨by decide, by decide, by decide⟩,
    Create_then_Get_round_trips envAllOk dbEmpty sampleNeed
      (by decide) (by decide) (by decide)⟩

end VitrineSocial
